import Mathlib

/-!
# Argos Data Sentinel — verification of the Suite compilation / result-classification core

A shallow embedding of the core pipeline of the `argos-data-sentinel` repository:
the rule-template rendering engine (`ads/core/rules/rule_template_base.py`),
the SQL-compiling builder (`ads/core/engine/sql_builder.py`), the threshold model
(`ads/core/models.py`), the result classifier (`ads/core/engine/result_parser.py`),
the two-tier rule registry (`ads/core/rules/*registry.py`) and the orchestrator
(`ads/core/runner/sentinel_ruınner.py`).

Python dynamics are modelled explicitly: runtime values are `PyVal` (numbers are
rationals, which agree with CPython float comparisons on every literal appearing
here), exceptions are `PyErr` carried in `Except`, dictionaries are association
lists with last-binding-wins lookup (the semantics of `{**a, **b}` merging), and
the jinja2 collaborator is modelled as variable interpolation over
`\x7b\x7b name \x7d\x7d` markers with either strict or keep-as-is handling of
undefined names, mirroring `StringHelper.render_jinja_template`'s two modes.
-/

set_option maxRecDepth 16384

deriving instance DecidableEq for Except

/-- A Python runtime value, restricted to the shapes the pipeline manipulates
(the scalar values of parameter maps and of engine result rows).  Numbers are
modelled as rationals. -/
inductive PyVal where
  | none : PyVal
  | bool : Bool → PyVal
  | num : ℚ → PyVal
  | str : String → PyVal
deriving DecidableEq

/-- Python exceptions raised by the modelled code. `ruleParameterError` is
`ads.core.rules.exceptions.RuleParameterError` with its `rule_name` and
`missing_params` attributes. -/
inductive PyErr where
  | typeError (msg : String)
  | valueError (msg : String)
  | keyError (msg : String)
  | attributeError (msg : String)
  | templateError (msg : String)
  | ruleParameterError (rule_name : String) (missing_params : List String)
deriving DecidableEq

/-- Python truthiness (`bool(v)`) for the modelled value shapes. -/
def PyVal.truthy : PyVal → Bool
  | .none => false
  | .bool b => b
  | .num q => q != 0
  | .str s => !s.isEmpty

/-- A Python `dict` with string keys, as an association list.  Lookups are
last-binding-wins, so `d ++ d'` is the merge `\x7b**d, **d'\x7d`. -/
abbrev PyDict : Type := List (String × PyVal)

/-- `d[k]` lookup with the last binding for `k` winning, `Option.none` when the
key is absent (i.e. Python `k in d` is false). -/
def PyDict.get? : PyDict → String → Option PyVal
  | [], _ => Option.none
  | (k', v) :: rest, k =>
    match PyDict.get? rest k with
    | Option.some w => Option.some w
    | Option.none => if k' = k then Option.some v else Option.none

/-- Python `d.get(k)`: the value for `k`, or `None` when absent. -/
def PyDict.getD (d : PyDict) (k : String) : PyVal :=
  (d.get? k).getD PyVal.none

/-- Python `k in d`. -/
def PyDict.hasKey (d : PyDict) (k : String) : Bool :=
  (d.get? k).isSome

/-- `str(v)` as used by jinja2 when a parameter is interpolated into a
template.  The exact numeric formatting is abstracted (CPython prints floats
with its own algorithm); no claim depends on it. -/
def PyVal.pyStr : PyVal → String
  | .none => "None"
  | .bool b => if b then "True" else "False"
  | .num q => toString q
  | .str s => s

/-- `str.join` of Python (`sep.join(items)`): items interleaved with the
separator. -/
def joinSep (sep : String) : List String → String
  | [] => ""
  | x :: xs =>
    match xs with
    | [] => x
    | _ :: _ => x ++ sep ++ joinSep sep xs

/-- Substring containment, the semantics of Python's `pat in s` on strings. -/
def strContains (s pat : String) : Bool :=
  decide (pat.data <:+: s.data)

/-- The opening jinja2 variable marker (two opening braces). -/
def jinjaOpen : String := "\x7b\x7b"

/-- The closing jinja2 variable marker (two closing braces). -/
def jinjaClose : String := "\x7d\x7d"

/-- Scan for the closing `\x7d\x7d` marker: returns the expression text before
it and the remaining input after it. -/
def splitAtClose : List Char → Option (List Char × List Char)
  | [] => Option.none
  | c :: rest =>
    if c = '\x7d' ∧ rest.head? = Option.some '\x7d' then
      Option.some ([], rest.tail)
    else
      match splitAtClose rest with
      | Option.none => Option.none
      | Option.some (e, r) => Option.some (c :: e, r)

/-- A jinja2 identifier: letters, digits and underscores, not starting with a
digit. -/
def isIdentChar (c : Char) : Bool := c.isAlphanum || c = '_'

/-- Whitespace trimming of an expression text, as character lists. -/
def trimChars (l : List Char) : List Char :=
  ((l.dropWhile (· = ' ')).reverse.dropWhile (· = ' ')).reverse

/-- Whether an expression text (already trimmed) is a plain variable name. -/
def isPlainVar (l : List Char) : Bool :=
  !l.isEmpty && l.all isIdentChar && !(l.headD '0').isDigit

/-- One variable interpolation step of the jinja2 model: resolve the trimmed
expression `expr` against `params`.  An undefined name raises
`jinja2.exceptions.UndefinedError` under `StrictUndefined` (`strict = true`)
and is echoed back verbatim as `\x7b\x7b name \x7d\x7d` under `DebugUndefined`
(`strict = false`), which is how `keep_undefined_as_is` is implemented in
`StringHelper.render_jinja_template`.  Expressions that are not plain variable
names (filters etc.) are out of the modelled fragment and raise a template
error. -/
def resolveVar (strict : Bool) (params : PyDict) (expr : List Char) :
    Except PyErr (List Char) :=
  if isPlainVar (trimChars expr) then
    match params.get? (String.mk (trimChars expr)) with
    | Option.some v => Except.ok v.pyStr.data
    | Option.none =>
      if strict then
        Except.error (PyErr.templateError (String.mk (trimChars expr) ++ " is undefined"))
      else
        Except.ok ((jinjaOpen ++ " ").data ++ trimChars expr ++ (" " ++ jinjaClose).data)
  else Except.error (PyErr.templateError "unsupported template expression")

/-- The scanner of the jinja2 model: copies characters, interpolating each
`\x7b\x7b expr \x7d\x7d` occurrence via `resolveVar`.  `fuel` only forces
structural termination; it is always called with more fuel than input
characters, so the fuel-exhaustion branch is unreachable. -/
def jinjaGo (strict : Bool) (params : PyDict) : ℕ → List Char → Except PyErr (List Char)
  | _, [] => Except.ok []
  | 0, _ :: _ => Except.error (PyErr.templateError "out of fuel")
  | fuel + 1, c :: rest =>
    if c = '\x7b' ∧ rest.head? = Option.some '\x7b' then
      match splitAtClose rest.tail with
      | Option.none => Except.error (PyErr.templateError "unexpected end of template")
      | Option.some (expr, rest') =>
        match resolveVar strict params expr with
        | Except.error e => Except.error e
        | Except.ok out =>
          match jinjaGo strict params fuel rest' with
          | Except.error e => Except.error e
          | Except.ok tail => Except.ok (out ++ tail)
    else
      match jinjaGo strict params fuel rest with
      | Except.error e => Except.error e
      | Except.ok tail => Except.ok (c :: tail)

/-- `StringHelper.render_jinja_template(value, params, keep_undefined_as_is)`:
renders a jinja template over a string.  `keep_undefined_as_is = False` means
`StrictUndefined` (`strict = true` here), `True` means `DebugUndefined`
(`strict = false`).  `params or \x7b\x7d` is modelled by the caller passing the
resolved dictionary. -/
def renderJinjaTemplate (value : String) (params : PyDict)
    (keepUndefinedAsIs : Bool) : Except PyErr String :=
  match jinjaGo (!keepUndefinedAsIs) params (value.data.length + 1) value.data with
  | Except.error e => Except.error e
  | Except.ok out => Except.ok (String.mk out)

/-! ## Enums (`ads/core/enums.py`) -/

/-- `CheckStatus`: PASS / FAIL / ERROR. -/
inductive CheckStatus where
  | PASS
  | FAIL
  | ERROR
deriving DecidableEq

/-- `Severity`: INFO / WARN / ERROR / CRITICAL. -/
inductive Severity where
  | INFO
  | WARN
  | ERROR
  | CRITICAL
deriving DecidableEq

/-- `DataSourceType`: TABLE / QUERY. -/
inductive DataSourceType where
  | TABLE
  | QUERY
deriving DecidableEq

/-! ## Threshold (`ads/core/models.py`, `Threshold`) -/

/-- `Threshold`: optional lower and upper bounds (CPython floats, modelled as
rationals). -/
structure Threshold where
  lower : Option ℚ := Option.none
  upper : Option ℚ := Option.none
deriving DecidableEq

/-- `Threshold.__init__(value, lower, upper)`: the single-`value` shorthand
sets both bounds to `value`. -/
def Threshold.init (value lower upper : Option ℚ) : Threshold :=
  match value with
  | Option.some v => { lower := Option.some v, upper := Option.some v }
  | Option.none => { lower := lower, upper := upper }

/-- `Threshold.is_within(val)`, translated clause by clause:
no bounds → True; `lower is not None and val < lower` → False;
`upper is not None and val > upper` → False; otherwise True. -/
def Threshold.is_within (t : Threshold) (val : ℚ) : Bool :=
  if t.lower = Option.none ∧ t.upper = Option.none then true
  else if match t.lower with
          | Option.some l => decide (val < l)
          | Option.none => false then false
  else if match t.upper with
          | Option.some u => decide (val > u)
          | Option.none => false then false
  else true

/-- Python `f"..."` interpolation of an `Optional[float]` field (`None` prints
as "None"; numeric formatting abstracted as for `PyVal.pyStr`). -/
def optRatStr : Option ℚ → String
  | Option.some q => toString q
  | Option.none => "None"

/-- `Threshold.describe()`.  Note the source's `self.lower or '-∞'`: a bound
that is `None` *or zero* falls back to the infinity symbol (Python `or` tests
truthiness, and `0.0` is falsy). -/
def Threshold.describe (t : Threshold) : String :=
  if t.lower = t.upper then "threshold = " ++ optRatStr t.lower
  else
    "range [" ++
      (match t.lower with
       | Option.some l => if l = 0 then "-∞" else toString l
       | Option.none => "-∞") ++ ", " ++
      (match t.upper with
       | Option.some u => if u = 0 then "+∞" else toString u
       | Option.none => "+∞") ++ "]"

/-! ## Rule templates (`ads/core/rules/rule_template_base.py`) -/

/-- A `RuleTemplateBase` instance: the class-level constants `name`,
`description`, `sql_template`, `required_params` plus the instance-level
default `params` mapping (typed `Optional[Dict]`, defaulting to an empty
dict via `default_factory`). -/
structure RuleTemplateBase where
  name : String
  description : String := ""
  sql_template : String
  params : Option PyDict := Option.some []
  required_params : List String := []
deriving DecidableEq

/-- `RuleTemplateBase._validate_required_params(params)`: collects every
required name `p` for which `not params.get(p)` holds (Python truthiness:
absent, `None`, empty string, `0`, `False` all fail the test) and raises
`RuleParameterError(rule_name, missing_params)` when the list is nonempty. -/
def RuleTemplateBase.validate_required_params (t : RuleTemplateBase)
    (params : PyDict) : Except PyErr Unit :=
  let missing_params := t.required_params.filter fun p => !(params.getD p).truthy
  if missing_params.isEmpty then Except.ok ()
  else Except.error (PyErr.ruleParameterError t.name missing_params)

/-- The merged parameter map of `RuleTemplateBase.render`:
`\x7b**(self.params or \x7b\x7d), **(extra_params or \x7b\x7d)\x7d`
(call-site keys win, by last-binding-wins lookup). -/
def RuleTemplateBase.combined_params (t : RuleTemplateBase)
    (extra_params : Option PyDict) : PyDict :=
  t.params.getD [] ++ extra_params.getD []

/-- `RuleTemplateBase.render(helpers, extra_params)`: merge parameters,
validate the required ones, render the jinja template with
`keep_undefined_as_is=True`, then fail with
`RuleParameterError(name, ["unresolved Jinja variables"])` if the rendered
text still contains an opening or closing marker. -/
def RuleTemplateBase.render (t : RuleTemplateBase)
    (extra_params : Option PyDict) : Except PyErr String :=
  match t.validate_required_params (t.combined_params extra_params) with
  | Except.error e => Except.error e
  | Except.ok _ =>
    match renderJinjaTemplate t.sql_template (t.combined_params extra_params) true with
    | Except.error e => Except.error e
    | Except.ok rendered_sql =>
      if strContains rendered_sql jinjaOpen || strContains rendered_sql jinjaClose then
        Except.error (PyErr.ruleParameterError t.name ["unresolved Jinja variables"])
      else Except.ok rendered_sql

/-! ## Data model (`ads/core/models.py`) -/

/-- `DataSource`: TABLE or QUERY plus the corresponding identifier/text. -/
structure DataSource where
  type : DataSourceType := DataSourceType.TABLE
  table : Option String := Option.none
  query : Option String := Option.none
  description : Option String := Option.none
deriving DecidableEq

/-- `Check`: one validation rule instance.  `params` is `Optional[Dict]`
defaulting to `None`. -/
structure Check where
  name : String
  description : Option String := Option.none
  rule_template : Option RuleTemplateBase := Option.none
  column_name : Option String := Option.none
  params : Option PyDict := Option.none
  severity : Severity := Severity.ERROR
  threshold : Option Threshold := Option.none
deriving DecidableEq

/-- `Suite`: a named group of checks over one `DataSource`. -/
structure Suite where
  name : String
  domain : Option String := Option.none
  owner : Option String := Option.none
  data_source : DataSource
  params : Option PyDict := Option.none
  checks : List Check := []
deriving DecidableEq

/-- `Result`: the classified outcome of one engine row. -/
structure Result where
  check_name : String
  status : CheckStatus := CheckStatus.ERROR
  severity : Severity := Severity.WARN
  message : Option String := Option.none
  value : Option ℚ := Option.none
  threshold_lower : Option ℚ := Option.none
  threshold_upper : Option ℚ := Option.none
deriving DecidableEq

/-! ## SQL builder (`ads/core/engine/sql_builder.py`) -/

/-- Sequencing of a Python list comprehension over fallible calls: the first
raised exception propagates, otherwise the list of results is produced. -/
def exMapM (f : α → Except PyErr β) : List α → Except PyErr (List β)
  | [] => Except.ok []
  | a :: rest =>
    match f a with
    | Except.error e => Except.error e
    | Except.ok b =>
      match exMapM f rest with
      | Except.error e => Except.error e
      | Except.ok bs => Except.ok (b :: bs)

namespace SQLBuilder

/-- `SQLBuilder._build_base_cte()`: the base CTE text for the suite's
`DataSource` (TABLE or QUERY flavour), then one jinja pass over it with the
suite's params and `keep_undefined_as_is=False`.  A `None` table or query is
interpolated by the f-string as the text "None". -/
def build_base_cte (suite : Suite) : Except PyErr String :=
  let sql_body :=
    match suite.data_source.type with
    | DataSourceType.TABLE =>
      "-- Base CTE (Data Source Type > TABLE)\n" ++
        "WITH cte_" ++ suite.name ++ "_base AS ( SELECT * FROM `" ++
        (match suite.data_source.table with
         | Option.some t => t
         | Option.none => "None") ++ "` )"
    | DataSourceType.QUERY =>
      "-- Base CTE (Data Source Type > QUERY)\n" ++
        "WITH cte_" ++ suite.name ++ "_base AS (\n " ++
        (match suite.data_source.query with
         | Option.some q => q
         | Option.none => "None") ++ " \n)"
  renderJinjaTemplate sql_body (suite.params.getD []) false

/-- The `extra_params` dictionary built at the `render` call site inside
`SQLBuilder._build_check_cte`:
`\x7b**check.params, "check_name": …, "suite_name": …, "column_name": …\x7d`.
The three identity keys are spliced after `**check.params`, so they win on
conflict. -/
def check_extra_params (suite : Suite) (check : Check) (ps : PyDict) : PyDict :=
  ps ++ [("check_name", PyVal.str check.name),
         ("suite_name", PyVal.str suite.name),
         ("column_name", match check.column_name with
                         | Option.some c => PyVal.str c
                         | Option.none => PyVal.none)]

/-- `SQLBuilder._build_check_cte(check)`: a missing rule template raises
`ValueError`; `\x7b**check.params, …\x7d` raises `TypeError` when
`check.params` is `None` (splatting a non-mapping); otherwise the rendered
fragment is wrapped as `cte_<check.name> AS (…)` behind a comment line. -/
def build_check_cte (suite : Suite) (check : Check) : Except PyErr String :=
  match check.rule_template with
  | Option.none =>
    Except.error (PyErr.valueError
      ("Check '" ++ check.name ++ "' has no associated rule template"))
  | Option.some t =>
    match check.params with
    | Option.none =>
      Except.error (PyErr.typeError
        "'NoneType' object is not a mapping")
    | Option.some ps =>
      match t.render (Option.some (check_extra_params suite check ps)) with
      | Except.error e => Except.error e
      | Except.ok sql_body =>
        let check_description :=
          match check.description with
          | Option.some d => if d.isEmpty then "" else "[" ++ d ++ "]"
          | Option.none => ""
        Except.ok ("\n-- Check CTE - " ++ check.name ++ " " ++ check_description ++
          "\ncte_" ++ check.name ++ " AS (" ++ sql_body ++ ")")

/-- `SQLBuilder._combine_cte_blocks(base_cte, check_ctes)`:
`", ".join([base_cte, *check_ctes])`. -/
def combine_cte_blocks (base_cte : String) (check_ctes : List String) : String :=
  joinSep ", " (base_cte :: check_ctes)

/-- The `f"SELECT * FROM cte_\x7bcheck.name\x7d"` select of the final merge
clause, one per check. -/
def union_select (check : Check) : String :=
  "SELECT * FROM cte_" ++ check.name

/-- The `check_unions` merge clause of `SQLBuilder.build`:
`"\nUNION ALL\n".join(f"SELECT * FROM cte_\x7bcheck.name\x7d" for check in
self.suite.checks)`. -/
def check_unions (suite : Suite) : String :=
  joinSep "\nUNION ALL\n" (suite.checks.map union_select)

/-- The `sql_body` of `SQLBuilder.build`: base CTE, one CTE per check,
combined and passed through one more jinja pass over the suite params with
`keep_undefined_as_is=False`. -/
def build_sql_body (suite : Suite) : Except PyErr String :=
  match build_base_cte suite with
  | Except.error e => Except.error e
  | Except.ok base_sql_block =>
    match exMapM (build_check_cte suite) suite.checks with
    | Except.error e => Except.error e
    | Except.ok check_cte_blocks =>
      renderJinjaTemplate (combine_cte_blocks base_sql_block check_cte_blocks)
        (suite.params.getD []) false

/-- `SQLBuilder.build()`: the full statement `f"\x7bsql_body\x7d\n\x7bcheck_unions\x7d"`. -/
def build (suite : Suite) : Except PyErr String :=
  match build_sql_body suite with
  | Except.error e => Except.error e
  | Except.ok sql_body => Except.ok (sql_body ++ "\n" ++ check_unions suite)

end SQLBuilder

/-! ## Result parser (`ads/core/engine/result_parser.py`) -/

namespace ResultParser

/-- The fixed, ordered list of candidate measurement field names probed by
`ResultParser._extract_value`. -/
def candidate_keys : List String :=
  ["check_value", "value", "metric_value", "ratio", "count", "row_count"]

/-- A decimal run of digits as a natural number, `Option.none` when empty or
non-digits occur. -/
def digitsToNat : List Char → Option ℕ
  | [] => Option.none
  | cs =>
    if cs.all Char.isDigit then
      Option.some (cs.foldl (fun n c => n * 10 + (c.toNat - '0'.toNat)) 0)
    else Option.none

/-- CPython `float(s)` on a string, restricted to plain decimal literals
(optional sign, integer part, optional fractional part): anything else —
in particular non-numeric text — raises `ValueError`.  This is the fragment
of the float grammar that engine result rows can contain. -/
def pyFloatOfString (s : String) : Except PyErr ℚ :=
  let (neg, body) :=
    match trimChars s.data with
    | '-' :: rest => (true, rest)
    | '+' :: rest => (false, rest)
    | cs => (false, cs)
  let intPart := body.takeWhile Char.isDigit
  let fracTail := body.drop intPart.length
  match fracTail with
  | [] =>
    match digitsToNat intPart with
    | Option.some n => Except.ok (if neg then -(n : ℚ) else (n : ℚ))
    | Option.none =>
      Except.error (PyErr.valueError ("could not convert string to float: " ++ s))
  | '.' :: fracPart =>
    if (fracPart.all Char.isDigit ∧ ¬(intPart = [] ∧ fracPart = [])) then
      let q : ℚ :=
        ((digitsToNat intPart).getD 0 : ℚ) +
          ((digitsToNat fracPart).getD 0 : ℚ) / ((10 : ℚ) ^ fracPart.length)
      Except.ok (if neg then -q else q)
    else
      Except.error (PyErr.valueError ("could not convert string to float: " ++ s))
  | _ =>
    Except.error (PyErr.valueError ("could not convert string to float: " ++ s))

/-- CPython `float(v)`: numbers pass through, booleans coerce to 0/1, strings
are parsed, `None` raises `TypeError`. -/
def pyFloat : PyVal → Except PyErr ℚ
  | PyVal.num q => Except.ok q
  | PyVal.bool b => Except.ok (if b then 1 else 0)
  | PyVal.str s => pyFloatOfString s
  | PyVal.none =>
    Except.error (PyErr.typeError
      "float() argument must be a string or a real number, not 'NoneType'")

/-- The probing loop of `ResultParser._extract_value(row)` over the candidate
keys: the first *present* key wins and its value goes through `float(...)`
(whose exception propagates); if no key is present the extracted value is
`None`. -/
def extract_value_from (row : PyDict) : List String → Except PyErr (Option ℚ)
  | [] => Except.ok Option.none
  | key :: keys =>
    match row.get? key with
    | Option.some v =>
      match pyFloat v with
      | Except.error e => Except.error e
      | Except.ok q => Except.ok (Option.some q)
    | Option.none => extract_value_from row keys

/-- `ResultParser._extract_value(row)`. -/
def extract_value (row : PyDict) : Except PyErr (Option ℚ) :=
  extract_value_from row candidate_keys

/-- `ResultParser._get_check_by_name(suite, check_name)`: first check whose
`name` equals the row's check-name value (a non-string row value compares
unequal to every name). -/
def get_check_by_name (suite : Suite) (check_name : PyVal) : Option Check :=
  suite.checks.find? fun check => PyVal.str check.name = check_name

/-- `ResultParser._build_message(check_name, value, threshold, status)`. -/
def build_message (check_name : String) (value : ℚ) (threshold : Threshold)
    (status : CheckStatus) : String :=
  if status = CheckStatus.PASS then
    check_name ++ ": value " ++ toString value ++ " within " ++ threshold.describe
  else
    check_name ++ ": value " ++ toString value ++ " outside " ++ threshold.describe

/-- The body of the `for row in rows` loop of `ResultParser.parse`, one row at
a time.  `row["check_name"]` raises `KeyError` when absent; an unmatched check
name logs a warning and `continue`s; `_extract_value`'s exception propagates
and aborts the loop; otherwise one `Result` is appended. -/
def parse (suite : Suite) : List PyDict → Except PyErr (List Result)
  | [] => Except.ok []
  | row :: rows =>
    match row.get? "check_name" with
    | Option.none => Except.error (PyErr.keyError "check_name")
    | Option.some check_name =>
      match get_check_by_name suite check_name with
      | Option.none => parse suite rows
      | Option.some check =>
        match extract_value row with
        | Except.error e => Except.error e
        | Except.ok value =>
          let threshold := check.threshold.getD {}
          let (status, message) :=
            match value with
            | Option.none => (CheckStatus.ERROR, "Check value is invalid!")
            | Option.some v =>
              let is_passed := threshold.is_within v
              let status := if is_passed then CheckStatus.PASS else CheckStatus.FAIL
              (status, build_message check_name.pyStr v threshold status)
          let result : Result :=
            { check_name := check_name.pyStr
              status := status
              message := Option.some message
              value := value
              threshold_lower := threshold.lower
              threshold_upper := threshold.upper
              severity := check.severity }
          match parse suite rows with
          | Except.error e => Except.error e
          | Except.ok results => Except.ok (result :: results)

end ResultParser

/-! ## Rule registries (`ads/core/rules/core_ruleset_registry.py`,
`plugin_ruleset_registry.py`, `ruleset_registry.py`) -/

/-- The attribute names of `CoreRulesetRegistry` (its six rule properties and
six parameterised accessor methods), the set probed by
`hasattr(self._core, rule_name)` in `RulesetRegistry.get`.  Object-protocol
dunder attributes are elided: no rule name collides with them. -/
def coreRulesetAttrs : List String :=
  ["not_null", "unique", "row_count", "negative_values", "constant_column",
   "null_ratio", "regex_match", "duplicated_rows", "freshness",
   "referential_integrity", "accepted_values", "value_range"]

/-- What `getattr(self._core, rule_name)` evaluates to: a rule template
instance for the property accessors, a bound method object for the
parameterised accessors. -/
inductive CoreAttr where
  | instanceOf (rule_name : String)
  | boundMethod (rule_name : String)
deriving DecidableEq

/-- The six attribute names of `CoreRulesetRegistry` that are parameterised
methods rather than properties. -/
def coreMethodAttrs : List String :=
  ["regex_match", "duplicated_rows", "freshness", "referential_integrity",
   "accepted_values", "value_range"]

/-- `getattr(self._core, rule_name)` for a name in `coreRulesetAttrs`. -/
def coreGetattr (rule_name : String) : CoreAttr :=
  if rule_name ∈ coreMethodAttrs then CoreAttr.boundMethod rule_name
  else CoreAttr.instanceOf rule_name

/-- A `PluginRulesetRegistry`: its `_rules` dict, keyed by each discovered
class's declared `name` lower-cased, holding the rule template produced by
instantiating that class. -/
structure PluginRulesetRegistry where
  rules : List (String × RuleTemplateBase)
deriving DecidableEq

/-- Lower-casing of one ASCII character. -/
def lowerChar (c : Char) : Char :=
  if 'A' ≤ c ∧ c ≤ 'Z' then Char.ofNat (c.toNat + 32) else c

/-- Python `str.lower()` (ASCII fragment; rule names are ASCII). -/
def strLower (s : String) : String := String.mk (s.data.map lowerChar)

/-- The Python type name of a value, as it appears in `AttributeError`
messages. -/
def PyVal.typeName : PyVal → String
  | PyVal.none => "NoneType"
  | PyVal.bool _ => "bool"
  | PyVal.num _ => "int"
  | PyVal.str _ => "str"

/-- `PluginRulesetRegistry.get(name, **params)` called with no extra params:
`self._rules.get(name.lower())`, `KeyError` when the class is missing,
otherwise an instance of the stored class.  `name.lower()` raises
`AttributeError` when `name` is not a string — which is exactly what happens
when the membership protocol probes `registry[0]`. -/
def PluginRulesetRegistry.get (reg : PluginRulesetRegistry) (name : PyVal) :
    Except PyErr RuleTemplateBase :=
  match name with
  | PyVal.str s =>
    match (reg.rules.find? fun r => r.1 = strLower s) with
    | Option.some r => Except.ok r.2
    | Option.none =>
      Except.error (PyErr.keyError ("Rule '" ++ s ++ "' not found in registry"))
  | v =>
    Except.error (PyErr.attributeError
      ("'" ++ v.typeName ++ "' object has no attribute 'lower'"))

/-- `registry[name]` (`PluginRulesetRegistry.__getitem__`). -/
def PluginRulesetRegistry.getitem (reg : PluginRulesetRegistry) (name : PyVal) :
    Except PyErr RuleTemplateBase :=
  reg.get name

/-- Pydantic model equality between a rule instance and an arbitrary value, as
used by the membership scan (`==` against a non-model is `False`). -/
def ruleEqPyVal (_ : RuleTemplateBase) (_ : PyVal) : Bool := false

/-- The legacy sequence-membership protocol that `item in registry` falls back
to, since `PluginRulesetRegistry` defines `__getitem__` but neither
`__contains__` nor `__iter__`: Python probes `registry[0]`, `registry[1]`, …
comparing each to `item`; an `IndexError` ends the scan with `False`, any
other exception propagates.  Probing `registry[0]` calls
`get(0)` whose `name.lower()` raises `AttributeError` on the integer index, so
the scan can never get past the first probe. -/
def pluginContainsFrom (reg : PluginRulesetRegistry) (item : PyVal) :
    ℕ → ℕ → Except PyErr Bool
  | 0, _ => Except.ok false
  | fuel + 1, i =>
    match reg.getitem (PyVal.num i) with
    | Except.error e => Except.error e
    | Except.ok v =>
      if ruleEqPyVal v item then Except.ok true
      else pluginContainsFrom reg item fuel (i + 1)

/-- `item in registry` for a `PluginRulesetRegistry`. -/
def PluginRulesetRegistry.contains (reg : PluginRulesetRegistry)
    (item : PyVal) : Except PyErr Bool :=
  pluginContainsFrom reg item (reg.rules.length + 1) 0

/-- What `RulesetRegistry.get` resolves to when it returns at all. -/
inductive ResolvedRule where
  | core (attr : CoreAttr)
  | plugin (t : RuleTemplateBase)
deriving DecidableEq

/-- `RulesetRegistry.get(rule_name)`: built-ins first by attribute name, then
the `rule_name in self._plugins` membership test (whose exception propagates),
then the plugin `get`, and finally
`KeyError(f"Rule '…' not found in core or plugin registry")`. -/
def RulesetRegistry.get (plugins : PluginRulesetRegistry) (rule_name : String) :
    Except PyErr ResolvedRule :=
  if rule_name ∈ coreRulesetAttrs then
    Except.ok (ResolvedRule.core (coreGetattr rule_name))
  else
    match plugins.contains (PyVal.str rule_name) with
    | Except.error e => Except.error e
    | Except.ok true =>
      match plugins.get (PyVal.str rule_name) with
      | Except.error e => Except.error e
      | Except.ok t => Except.ok (ResolvedRule.plugin t)
    | Except.ok false =>
      Except.error (PyErr.keyError
        ("Rule '" ++ rule_name ++ "' not found in core or plugin registry"))

/-- The `GreaterThan` rule of `ads/plugins/rules/greater_than_rule.py`, the
one discovered plugin: declared name `greater_than`, two required params. -/
def greaterThanRule : RuleTemplateBase :=
  { name := "greater_than"
    description := "Counts values greater than the lower limit value."
    sql_template :=
      "\nSELECT \n    '" ++ jinjaOpen ++ " check_name " ++ jinjaClose ++
      "' AS check_name,\n    COUNTIF(" ++ jinjaOpen ++ " column_name " ++
      jinjaClose ++ " > (" ++ jinjaOpen ++ " lower_limit_value " ++ jinjaClose ++
      ")) AS value\nFROM\n    cte_" ++ jinjaOpen ++ " suite_name " ++ jinjaClose ++
      "_base\n    "
    params := Option.some []
    required_params := ["column_name", "lower_limit_value"] }

/-- The plugin registry as discovered from `ads/plugins/rules`: exactly the
`GreaterThan` class, registered under its lower-cased declared name. -/
def adsPluginRegistry : PluginRulesetRegistry :=
  { rules := [("greater_than", greaterThanRule)] }

/-! ## Orchestrator (`ads/core/runner/sentinel_ruınner.py`) -/

/-- The parameter names of `Executor.execute`
(`ads/core/engine/executor.py`): `self, sql_query, flatten_results,
dry_run_first, dry_run_only` — and no `**kwargs`. -/
def executorExecuteParams : List String :=
  ["sql_query", "flatten_results", "dry_run_first", "dry_run_only"]

/-- The keyword names `SentinelRunner.run_suite` uses at its
`self._executor.execute(...)` call site. -/
def runSuiteExecuteCallKeywords : List String :=
  ["sql_query", "flatten_results", "validate_first", "validate_only", "extra"]

/-- Python call binding for keyword arguments against a callee without
`**kwargs`: every keyword must name a declared parameter, otherwise the call
raises `TypeError` before the callee body runs. -/
def pyKeywordsBind (declared keywords : List String) : Bool :=
  keywords.all fun k => declared.contains k

/-- `SentinelRunner.run_suite(suite, ...)`.  The executor itself is the
external BigQuery collaborator, abstracted as `executeImpl` returning
`execute`'s declared `(rows, metadata)` pair.  The run: build the SQL
(builder exceptions propagate), then invoke `executor.execute` with the
run_suite call-site keywords — a binding that fails, since `validate_first`,
`validate_only` and `extra` are not parameters of `Executor.execute`.  Were
the call to bind, the source would next unpack `metadata, rows` against the
`(rows, metadata)` return order and then call
`self._result_parser.parse(rows=rows)`, which omits the required `suite`
parameter of `ResultParser.parse(self, suite, rows)` and so also raises
`TypeError`. -/
def SentinelRunner.run_suite
    (executeImpl : String → List PyDict × PyDict) (suite : Suite) :
    Except PyErr (PyDict × List Result) :=
  match SQLBuilder.build suite with
  | Except.error e => Except.error e
  | Except.ok sql_query =>
    if pyKeywordsBind executorExecuteParams runSuiteExecuteCallKeywords then
      let (metadata_slot, _rows_slot) := executeImpl sql_query
      let _ := metadata_slot
      Except.error (PyErr.typeError
        "parse() missing 1 required positional argument: 'suite'")
    else
      Except.error (PyErr.typeError
        "execute() got an unexpected keyword argument 'validate_first'")

/-! ## General lemmas about the embedding -/

theorem PyDict.get?_append (d d' : PyDict) (k : String) :
    PyDict.get? (d ++ d') k =
      match PyDict.get? d' k with
      | Option.some v => Option.some v
      | Option.none => PyDict.get? d k := by
  induction d with
  | nil => cases h : PyDict.get? d' k <;> simp [PyDict.get?, h]
  | cons p rest ih =>
    obtain ⟨k', v⟩ := p
    simp only [List.cons_append, PyDict.get?]
    rw [show PyDict.get? (rest.append d') k = PyDict.get? (rest ++ d') k from rfl, ih]
    cases h : PyDict.get? d' k <;> cases h' : PyDict.get? rest k <;> simp

theorem exMapM_length {f : α → Except PyErr β} {l : List α} {bs : List β}
    (h : exMapM f l = Except.ok bs) : bs.length = l.length := by
  induction l generalizing bs with
  | nil => simp [exMapM] at h; simp [← h]
  | cons a rest ih =>
    simp only [exMapM] at h
    cases hf : f a with
    | error e => rw [hf] at h; exact absurd h (by simp)
    | ok b =>
      rw [hf] at h
      cases hr : exMapM f rest with
      | error e => rw [hr] at h; exact absurd h (by simp)
      | ok bs' =>
        rw [hr] at h
        cases h
        simp [ih hr]

theorem exMapM_forall₂ {f : α → Except PyErr β} {l : List α} {bs : List β}
    (h : exMapM f l = Except.ok bs) :
    List.Forall₂ (fun a b => f a = Except.ok b) l bs := by
  induction l generalizing bs with
  | nil => simp [exMapM] at h; simp [← h]
  | cons a rest ih =>
    simp only [exMapM] at h
    cases hf : f a with
    | error e => rw [hf] at h; exact absurd h (by simp)
    | ok b =>
      rw [hf] at h
      cases hr : exMapM f rest with
      | error e => rw [hr] at h; exact absurd h (by simp)
      | ok bs' =>
        rw [hr] at h
        cases h
        exact List.Forall₂.cons hf (ih hr)

theorem exMapM_mem_ok {f : α → Except PyErr β} {l : List α} {bs : List β}
    (h : exMapM f l = Except.ok bs) {a : α} (ha : a ∈ l) :
    ∃ b, f a = Except.ok b := by
  induction l generalizing bs with
  | nil => cases ha
  | cons x rest ih =>
    simp only [exMapM] at h
    cases hf : f x with
    | error e => rw [hf] at h; exact absurd h (by simp)
    | ok b =>
      rw [hf] at h
      cases hr : exMapM f rest with
      | error e => rw [hr] at h; exact absurd h (by simp)
      | ok bs' =>
        rcases List.mem_cons.mp ha with rfl | ha'
        · exact ⟨b, hf⟩
        · exact ih hr ha'

/-! ## Claim C8 — Threshold containment semantics -/

/-- C8: `Threshold(lower=3, upper=10).is_within(v)` holds exactly when
`3 <= v <= 10`, inclusive on both bounds — so true at 3, 5 and 10 and false at
2.999 and 10.001 — a null bound is unbounded on that side, and `Threshold()`
with neither bound set is within for every value, including 0 and negative
values. -/
theorem threshold_is_within_range_semantics :
    (∀ v : ℚ, (Threshold.mk (Option.some 3) (Option.some 10)).is_within v = true
        ↔ 3 ≤ v ∧ v ≤ 10)
    ∧ (Threshold.mk (Option.some 3) (Option.some 10)).is_within 3 = true
    ∧ (Threshold.mk (Option.some 3) (Option.some 10)).is_within 5 = true
    ∧ (Threshold.mk (Option.some 3) (Option.some 10)).is_within 10 = true
    ∧ (Threshold.mk (Option.some 3) (Option.some 10)).is_within (2999/1000) = false
    ∧ (Threshold.mk (Option.some 3) (Option.some 10)).is_within (10001/1000) = false
    ∧ (∀ v : ℚ, (Threshold.mk (Option.some 3) Option.none).is_within v = true ↔ 3 ≤ v)
    ∧ (∀ v : ℚ, (Threshold.mk Option.none (Option.some 10)).is_within v = true ↔ v ≤ 10)
    ∧ (∀ v : ℚ, (Threshold.mk Option.none Option.none).is_within v = true)
    ∧ (Threshold.mk Option.none Option.none).is_within 0 = true
    ∧ (Threshold.mk Option.none Option.none).is_within (-5) = true := by
  refine ⟨fun v => ?_, by decide, by decide, by decide,
    ?_, ?_, fun v => ?_, fun v => ?_, fun v => ?_, by decide, by decide⟩
  · simp [Threshold.is_within, not_lt]
  · norm_num [Threshold.is_within]
    intro h
    exact absurd h (by simp)
  · norm_num [Threshold.is_within]
    intro h
    exact absurd h (by simp)
  · simp [Threshold.is_within, not_lt]
  · simp [Threshold.is_within, not_lt]
  · simp [Threshold.is_within]

/-! ## Claim C4 — required-parameter validation -/

/-- A template with one required parameter, used to exercise the validation
path of `RuleTemplateBase.render`. -/
def c4Template : RuleTemplateBase :=
  { name := "r"
    sql_template := "SELECT 1"
    params := Option.some []
    required_params := ["x"] }

/-- C4 counterexample: the merged map binds the required name `x` to the
number 0 — an entry that is present, non-null and not an (empty) string, so
the claim says render must get past validation — yet render fails with
`MissingParameter` naming `x`, because `_validate_required_params` tests
Python *truthiness* (`not params.get(p)`) and `0` is falsy. -/
theorem render_rejects_falsy_zero_param :
    c4Template.render (Option.some [("x", PyVal.num 0)]) =
      Except.error (PyErr.ruleParameterError "r" ["x"])
    ∧ PyDict.get? [("x", PyVal.num 0)] "x" = Option.some (PyVal.num 0)
    ∧ PyVal.num 0 ≠ PyVal.none
    ∧ PyVal.num 0 ≠ PyVal.str "" := by
  refine ⟨by decide, by decide, by decide, by decide⟩

/-- C4 (amended): render fails with `MissingParameter` exactly when some name
in `required_params` has a *falsy* entry in the merged map (absent, null,
empty string, zero, `False` — Python truthiness, not merely null/empty-string
as claimed), the error names the rule and every such name (not just the
first), and validation passes whenever every required entry is truthy. -/
theorem render_missing_params_truthiness (t : RuleTemplateBase)
    (extra_params : Option PyDict) (missing : List String)
    (hm : missing = t.required_params.filter
      fun p => !((t.combined_params extra_params).getD p).truthy) :
    (missing = [] →
      t.validate_required_params (t.combined_params extra_params) = Except.ok ())
    ∧ (missing ≠ [] →
      t.render extra_params = Except.error (PyErr.ruleParameterError t.name missing)) := by
  constructor
  · intro he
    rw [RuleTemplateBase.validate_required_params, ← hm, he]
    simp
  · intro hne
    have hval : t.validate_required_params (t.combined_params extra_params) =
        Except.error (PyErr.ruleParameterError t.name missing) := by
      rw [RuleTemplateBase.validate_required_params, ← hm]
      simp [List.isEmpty_iff, hne]
    rw [RuleTemplateBase.render, hval]

/-- Witness for the amended C4 at a concrete input: required names `a`, `b`,
`c` with only `a` bound to a truthy value — render reports *both* `b` and `c`. -/
theorem render_missing_params_truthiness_witness :
    ({ name := "w", sql_template := "SELECT 1", params := Option.some [],
       required_params := ["a", "b", "c"] : RuleTemplateBase }.render
        (Option.some [("a", PyVal.str "ok"), ("b", PyVal.str "")])) =
      Except.error (PyErr.ruleParameterError "w" ["b", "c"]) :=
  (render_missing_params_truthiness
    { name := "w", sql_template := "SELECT 1", params := Option.some [],
      required_params := ["a", "b", "c"] }
    (Option.some [("a", PyVal.str "ok"), ("b", PyVal.str "")])
    ["b", "c"] (by decide)).2 (by decide)

/-! ## Claim C5 — unresolved-placeholder fail-safe -/

/-- A template whose body still references the undeclared parameter `foo`. -/
def c5Template : RuleTemplateBase :=
  { name := "r2"
    sql_template := "SELECT " ++ jinjaOpen ++ " foo " ++ jinjaClose
    params := Option.some []
    required_params := [] }

/-- C5 counterexample: rendering `c5Template` with no parameters leaves the
placeholder `foo` unresolved; render does fail with the `MissingParameter`
error kind, but its `missing_params` payload is the fixed marker string
`"unresolved Jinja variables"` — it does not name the unresolved placeholder
`foo`. -/
theorem render_unresolved_marker_not_names :
    c5Template.render (Option.some []) =
      Except.error (PyErr.ruleParameterError "r2" ["unresolved Jinja variables"])
    ∧ "foo" ∉ ["unresolved Jinja variables"] := by
  refine ⟨by decide, by decide⟩

/-- C5 (amended): whenever the substituted output still contains an
unexpanded placeholder marker, render fails with the `MissingParameter` error
kind carrying the fixed marker text `"unresolved Jinja variables"` (it does
not name the individual placeholders); dually, a fragment that render returns
never contains an opening or closing placeholder marker, so unresolved
placeholders never silently pass through. -/
theorem render_unresolved_placeholders_fail (t : RuleTemplateBase)
    (extra_params : Option PyDict) :
    (∀ s, t.render extra_params = Except.ok s →
      strContains s jinjaOpen = false ∧ strContains s jinjaClose = false)
    ∧ (∀ r, t.validate_required_params (t.combined_params extra_params) = Except.ok () →
        renderJinjaTemplate t.sql_template (t.combined_params extra_params) true =
          Except.ok r →
        (strContains r jinjaOpen || strContains r jinjaClose) = true →
        t.render extra_params =
          Except.error (PyErr.ruleParameterError t.name ["unresolved Jinja variables"])) := by
  constructor
  · intro s hs
    unfold RuleTemplateBase.render at hs
    cases hval : t.validate_required_params (t.combined_params extra_params) with
    | error e => rw [hval] at hs; exact absurd hs (by simp)
    | ok u =>
      rw [hval] at hs
      cases hr : renderJinjaTemplate t.sql_template (t.combined_params extra_params) true with
      | error e => rw [hr] at hs; exact absurd hs (by simp)
      | ok rendered =>
        rw [hr] at hs
        dsimp only at hs
        by_cases hmark :
            (strContains rendered jinjaOpen || strContains rendered jinjaClose) = true
        · rw [if_pos hmark] at hs
          exact absurd hs (by simp)
        · rw [if_neg hmark] at hs
          cases hs
          constructor
          · cases h1 : strContains s jinjaOpen
            · rfl
            · exact absurd (by rw [h1]; simp) hmark
          · cases h2 : strContains s jinjaClose
            · rfl
            · exact absurd (by rw [h2]; simp) hmark
  · intro r hval hr hmark
    unfold RuleTemplateBase.render
    rw [hval, hr]
    dsimp only
    rw [if_pos hmark]

/-- Witness for the amended C5 at a concrete input: `c5Template` with a bound
`bar` but unresolved `foo`. -/
theorem render_unresolved_placeholders_fail_witness :
    c5Template.render (Option.some [("bar", PyVal.num 1)]) =
      Except.error (PyErr.ruleParameterError "r2" ["unresolved Jinja variables"]) :=
  (render_unresolved_placeholders_fail c5Template
      (Option.some [("bar", PyVal.num 1)])).2
    ("SELECT " ++ jinjaOpen ++ " foo " ++ jinjaClose)
    (by decide) (by decide) (by decide)

/-! ## Claim C7 — identity fields are never shadowable -/

/-- The lookups of the three identity keys in the trailing identity triple of
`check_extra_params` (symbolic values; the keys are distinct literals). -/
theorem identity_triple_get (v1 v2 v3 : PyVal) :
    PyDict.get? [("check_name", v1), ("suite_name", v2), ("column_name", v3)]
      "check_name" = Option.some v1
    ∧ PyDict.get? [("check_name", v1), ("suite_name", v2), ("column_name", v3)]
      "suite_name" = Option.some v2
    ∧ PyDict.get? [("check_name", v1), ("suite_name", v2), ("column_name", v3)]
      "column_name" = Option.some v3 := by
  refine ⟨?_, ?_, ?_⟩ <;> simp [PyDict.get?]

/-- The merged map used by a check-fragment render resolves a key to the
identity triple's binding whenever the triple binds it, whatever
`check.params` and the template's own defaults say. -/
theorem check_render_params_get (t : RuleTemplateBase) (suite : Suite)
    (check : Check) (ps : PyDict) (k : String) (v : PyVal)
    (hk : PyDict.get? [("check_name", PyVal.str check.name),
      ("suite_name", PyVal.str suite.name),
      ("column_name", match check.column_name with
                      | Option.some c => PyVal.str c
                      | Option.none => PyVal.none)] k = Option.some v) :
    PyDict.get? (t.combined_params
      (Option.some (SQLBuilder.check_extra_params suite check ps))) k =
      Option.some v := by
  rw [RuleTemplateBase.combined_params, SQLBuilder.check_extra_params]
  rw [show (Option.some (ps ++ [("check_name", PyVal.str check.name),
      ("suite_name", PyVal.str suite.name),
      ("column_name", match check.column_name with
                      | Option.some c => PyVal.str c
                      | Option.none => PyVal.none)]) : Option PyDict).getD [] =
    ps ++ [("check_name", PyVal.str check.name),
      ("suite_name", PyVal.str suite.name),
      ("column_name", match check.column_name with
                      | Option.some c => PyVal.str c
                      | Option.none => PyVal.none)] from rfl]
  rw [PyDict.get?_append, PyDict.get?_append, hk]

/-- C7: when `SQLBuilder._build_check_cte` renders a Check's fragment, the
parameter values actually used for `check_name`, `suite_name` and
`column_name` are the Check's own name, the Suite's name and the Check's
`column_name` — the identity triple is spliced after `**check.params` at the
call site and the call-site map wins over the template's instance defaults,
so neither check-level params nor template defaults can shadow them; and the
fragment rendering really receives exactly that merged call-site map. -/
theorem check_cte_identity_fields_override (suite : Suite) (check : Check)
    (t : RuleTemplateBase) (ps : PyDict)
    (hrt : check.rule_template = Option.some t)
    (hps : check.params = Option.some ps) :
    (PyDict.get? (t.combined_params
        (Option.some (SQLBuilder.check_extra_params suite check ps))) "check_name" =
      Option.some (PyVal.str check.name))
    ∧ (PyDict.get? (t.combined_params
        (Option.some (SQLBuilder.check_extra_params suite check ps))) "suite_name" =
      Option.some (PyVal.str suite.name))
    ∧ (PyDict.get? (t.combined_params
        (Option.some (SQLBuilder.check_extra_params suite check ps))) "column_name" =
      Option.some (match check.column_name with
                   | Option.some c => PyVal.str c
                   | Option.none => PyVal.none))
    ∧ SQLBuilder.build_check_cte suite check =
        (match t.render (Option.some (SQLBuilder.check_extra_params suite check ps)) with
         | Except.error e => Except.error e
         | Except.ok sql_body =>
           Except.ok ("\n-- Check CTE - " ++ check.name ++ " " ++
             (match check.description with
              | Option.some d => if d.isEmpty then "" else "[" ++ d ++ "]"
              | Option.none => "") ++
             "\ncte_" ++ check.name ++ " AS (" ++ sql_body ++ ")")) := by
  obtain ⟨h1, h2, h3⟩ := identity_triple_get (PyVal.str check.name)
    (PyVal.str suite.name)
    (match check.column_name with
     | Option.some c => PyVal.str c
     | Option.none => PyVal.none)
  refine ⟨check_render_params_get t suite check ps _ _ h1,
    check_render_params_get t suite check ps _ _ h2,
    check_render_params_get t suite check ps _ _ h3, ?_⟩
  unfold SQLBuilder.build_check_cte
  rw [hrt, hps]

/-- The template of the C7 witness: its instance default tries to bind
`check_name` to a decoy. -/
def c7Template : RuleTemplateBase :=
  { name := "t7"
    sql_template := "SELECT 1"
    params := Option.some [("check_name", PyVal.str "decoy0")] }

/-- The check-level params of the C7 witness: all three identity keys bound
to decoys. -/
def c7Params : PyDict :=
  [("check_name", PyVal.str "decoy1"), ("suite_name", PyVal.str "decoy2"),
   ("column_name", PyVal.str "decoy3")]

/-- The check of the C7 witness. -/
def c7Check : Check :=
  { name := "c7"
    column_name := Option.some "col7"
    rule_template := Option.some c7Template
    params := Option.some c7Params }

/-- The suite of the C7 witness. -/
def c7Suite : Suite :=
  { name := "s7"
    data_source := {} }

/-- Witness for C7 at a concrete input: the check's own params bind all three
identity keys to decoy values and the template default binds another, yet the
merged map resolves all three to the identity values. -/
theorem check_cte_identity_fields_override_witness :
    PyDict.get? (c7Template.combined_params
      (Option.some (SQLBuilder.check_extra_params c7Suite c7Check c7Params)))
      "check_name" = Option.some (PyVal.str "c7")
    ∧ PyDict.get? (c7Template.combined_params
      (Option.some (SQLBuilder.check_extra_params c7Suite c7Check c7Params)))
      "suite_name" = Option.some (PyVal.str "s7")
    ∧ PyDict.get? (c7Template.combined_params
      (Option.some (SQLBuilder.check_extra_params c7Suite c7Check c7Params)))
      "column_name" = Option.some (PyVal.str "col7") := by
  obtain ⟨h1, h2, h3, _⟩ := check_cte_identity_fields_override c7Suite c7Check
    c7Template c7Params (by decide) (by decide)
  exact ⟨h1, h2, h3⟩

/-! ## Claim C10 — a `None` params mapping breaks check compilation -/

/-- C10: for a Check whose `params` field is left at its default `None`,
`_build_check_cte` raises (splatting `**check.params` over a non-mapping)
even when the check has a bound rule template — and consequently
`SQLBuilder.build` of any suite containing such a check can never return a
statement.  Compiling a check is only defined when `params` is an explicit
(possibly empty) mapping. -/
theorem build_check_cte_none_params_raises (suite : Suite) (check : Check)
    (t : RuleTemplateBase)
    (hrt : check.rule_template = Option.some t)
    (hps : check.params = Option.none) :
    SQLBuilder.build_check_cte suite check =
      Except.error (PyErr.typeError "'NoneType' object is not a mapping")
    ∧ (check ∈ suite.checks → ∀ s, SQLBuilder.build suite ≠ Except.ok s) := by
  have h1 : SQLBuilder.build_check_cte suite check =
      Except.error (PyErr.typeError "'NoneType' object is not a mapping") := by
    unfold SQLBuilder.build_check_cte
    rw [hrt, hps]
  refine ⟨h1, ?_⟩
  intro hmem s hok
  unfold SQLBuilder.build at hok
  cases hb : SQLBuilder.build_sql_body suite with
  | error e => rw [hb] at hok; exact absurd hok (by simp)
  | ok body =>
    unfold SQLBuilder.build_sql_body at hb
    cases hbase : SQLBuilder.build_base_cte suite with
    | error e => rw [hbase] at hb; exact absurd hb (by simp)
    | ok base =>
      rw [hbase] at hb
      cases hctes : exMapM (SQLBuilder.build_check_cte suite) suite.checks with
      | error e => rw [hctes] at hb; exact absurd hb (by simp)
      | ok ctes =>
        obtain ⟨b, hbm⟩ := exMapM_mem_ok hctes hmem
        rw [h1] at hbm
        exact absurd hbm (by simp)

/-- The check of the C10 witness: bound rule template, `params` left `None`. -/
def c10Check : Check :=
  { name := "c10"
    rule_template := Option.some { name := "t10", sql_template := "SELECT 1" }
    params := Option.none }

/-- The suite of the C10 witness. -/
def c10Suite : Suite :=
  { name := "s10"
    data_source := {}
    checks := [c10Check] }

/-- Witness for C10 at a concrete input. -/
theorem build_check_cte_none_params_raises_witness :
    SQLBuilder.build_check_cte c10Suite c10Check =
      Except.error (PyErr.typeError "'NoneType' object is not a mapping") :=
  (build_check_cte_none_params_raises c10Suite c10Check
    { name := "t10", sql_template := "SELECT 1" } (by decide) (by decide)).1

/-! ## Claim C2 — invalid-value handling during classification -/

/-- All candidate measurement keys absent from a row means `_extract_value`
returns `None` (no exception). -/
theorem extract_value_from_all_absent (row : PyDict) (keys : List String)
    (h : ∀ k ∈ keys, row.hasKey k = false) :
    ResultParser.extract_value_from row keys = Except.ok Option.none := by
  induction keys with
  | nil => rfl
  | cons k ks ih =>
    have hk := h k (List.mem_cons_self k ks)
    unfold ResultParser.extract_value_from
    cases hg : row.get? k with
    | some v => rw [PyDict.hasKey, hg] at hk; exact absurd hk (by simp)
    | none =>
      exact ih fun k' hk' => h k' (List.mem_cons_of_mem k hk')

/-- The suite of the C2 analysis: one check named `a` with a lower-bound-100
threshold. -/
def c2Suite : Suite :=
  { name := "s2"
    data_source := {}
    checks := [{ name := "a"
                 rule_template := Option.some { name := "t2", sql_template := "SELECT 1" }
                 params := Option.some []
                 threshold := Option.some { lower := Option.some 100 } }] }

/-- C2 counterexample: a row whose matched check exists (`a` is in the suite)
and whose measurement field `value` holds the non-coercible text "abc".  The
claim says classification must produce an ERROR Result and never abort the
batch; instead `_extract_value`'s bare `float(row[key])` raises `ValueError`
and the whole `parse` call aborts, producing no Result list at all. -/
theorem parse_aborts_on_uncoercible_value :
    ResultParser.parse c2Suite
      [[("check_name", PyVal.str "a"), ("value", PyVal.str "abc")]] =
      Except.error (PyErr.valueError "could not convert string to float: abc")
    ∧ ResultParser.get_check_by_name c2Suite (PyVal.str "a") ≠ Option.none := by
  refine ⟨by decide, by decide⟩

/-- C2 (amended): for a row whose matched Check exists, if the row has *no*
numeric measurement field at all, classification produces a Result with
status ERROR, the fixed invalid-value message and a null value, and the rest
of the batch is processed unchanged; but if a measurement field is present
and its value cannot be coerced to a number, the coercion exception
propagates and aborts the whole batch. -/
theorem parse_invalid_value_handling (suite : Suite) (check : Check)
    (row : PyDict) (rows : List PyDict) (cn : PyVal)
    (hcn : row.get? "check_name" = Option.some cn)
    (hmatch : ResultParser.get_check_by_name suite cn = Option.some check) :
    (ResultParser.extract_value row = Except.ok Option.none →
      ResultParser.parse suite (row :: rows) =
        (ResultParser.parse suite rows).map fun results =>
          { check_name := cn.pyStr
            status := CheckStatus.ERROR
            severity := check.severity
            message := Option.some "Check value is invalid!"
            value := Option.none
            threshold_lower := (check.threshold.getD {}).lower
            threshold_upper := (check.threshold.getD {}).upper } :: results)
    ∧ (∀ e, ResultParser.extract_value row = Except.error e →
        ResultParser.parse suite (row :: rows) = Except.error e)
    ∧ ((∀ k ∈ ResultParser.candidate_keys, row.hasKey k = false) →
        ResultParser.extract_value row = Except.ok Option.none) := by
  refine ⟨?_, ?_, ?_⟩
  · intro hev
    rw [ResultParser.parse, hcn]
    dsimp only
    rw [hmatch]
    dsimp only
    rw [hev]
    dsimp only
    cases hrec : ResultParser.parse suite rows with
    | error e => rfl
    | ok results => rfl
  · intro e hev
    rw [ResultParser.parse, hcn]
    dsimp only
    rw [hmatch]
    dsimp only
    rw [hev]
  · intro hkeys
    exact extract_value_from_all_absent row ResultParser.candidate_keys hkeys

/-- Witness for the amended C2 at a concrete input: a matched row with no
measurement field yields exactly one ERROR Result with the fixed message and
no value, in front of the classification of the remaining rows. -/
theorem parse_invalid_value_handling_witness :
    ResultParser.parse c2Suite [[("check_name", PyVal.str "a")]] =
      Except.ok [{ check_name := "a"
                   status := CheckStatus.ERROR
                   severity := Severity.ERROR
                   message := Option.some "Check value is invalid!"
                   value := Option.none
                   threshold_lower := Option.some 100
                   threshold_upper := Option.none }] := by
  have h := (parse_invalid_value_handling c2Suite
    { name := "a"
      rule_template := Option.some { name := "t2", sql_template := "SELECT 1" }
      params := Option.some []
      threshold := Option.some { lower := Option.some 100 } }
    [("check_name", PyVal.str "a")] [] (PyVal.str "a")
    (by decide) (by decide)).1 (by decide)
  simpa using h

/-! ## Claim C9 — unmatched rows are dropped -/

/-- The number of rows whose check-name field holds a value matching no Check
of the suite (rows the parser drops with a warning). -/
def unmatchedRowCount (suite : Suite) (rows : List PyDict) : ℕ :=
  (rows.filter fun row =>
    match row.get? "check_name" with
    | Option.some cn => (ResultParser.get_check_by_name suite cn).isNone
    | Option.none => false).length

/-- C9: a row whose check-name matches no Check of the suite is silently
dropped — classifying `row :: rows` is literally classifying `rows` — and
whenever `parse` returns a Result list at all, that list is shorter than the
input row list by exactly the number of unmatched rows. -/
theorem parse_unmatched_rows_dropped (suite : Suite) :
    (∀ row rows cn, row.get? "check_name" = Option.some cn →
      ResultParser.get_check_by_name suite cn = Option.none →
      ResultParser.parse suite (row :: rows) = ResultParser.parse suite rows)
    ∧ (∀ rows results, ResultParser.parse suite rows = Except.ok results →
      results.length + unmatchedRowCount suite rows = rows.length) := by
  constructor
  · intro row rows cn hcn hnone
    rw [ResultParser.parse, hcn]
    dsimp only
    rw [hnone]
  · intro rows
    induction rows with
    | nil =>
      intro results h
      rw [ResultParser.parse] at h
      cases h
      rfl
    | cons row rows ih =>
      intro results h
      rw [ResultParser.parse] at h
      cases hcn : row.get? "check_name" with
      | none => rw [hcn] at h; exact absurd h (by simp)
      | some cn =>
        rw [hcn] at h
        dsimp only at h
        cases hmatch : ResultParser.get_check_by_name suite cn with
        | none =>
          rw [hmatch] at h
          dsimp only at h
          have := ih results h
          have hcount : unmatchedRowCount suite (row :: rows) =
              unmatchedRowCount suite rows + 1 := by
            unfold unmatchedRowCount
            rw [List.filter_cons]
            simp [hcn, hmatch]
          rw [hcount]
          simp only [List.length_cons]
          omega
        | some check =>
          rw [hmatch] at h
          dsimp only at h
          cases hev : ResultParser.extract_value row with
          | error e => rw [hev] at h; exact absurd h (by simp)
          | ok value =>
            rw [hev] at h
            dsimp only at h
            cases hrec : ResultParser.parse suite rows with
            | error e => rw [hrec] at h; exact absurd h (by simp)
            | ok rs =>
              rw [hrec] at h
              dsimp only at h
              cases h
              have := ih rs hrec
              have hcount : unmatchedRowCount suite (row :: rows) =
                  unmatchedRowCount suite rows := by
                unfold unmatchedRowCount
                rw [List.filter_cons]
                simp [hcn, hmatch]
              rw [hcount]
              simp only [List.length_cons]
              omega

/-- Witness for C9 at a concrete input: two rows, the first unmatched
(`zzz`), so exactly one Result comes back — one fewer than the input rows. -/
theorem parse_unmatched_rows_dropped_witness :
    ResultParser.parse c2Suite
        [[("check_name", PyVal.str "zzz")],
         [("check_name", PyVal.str "a"), ("value", PyVal.num 150)]] =
      ResultParser.parse c2Suite
        [[("check_name", PyVal.str "a"), ("value", PyVal.num 150)]]
    ∧ 1 + unmatchedRowCount c2Suite
        [[("check_name", PyVal.str "zzz")],
         [("check_name", PyVal.str "a"), ("value", PyVal.num 150)]] = 2 := by
  constructor
  · exact (parse_unmatched_rows_dropped c2Suite).1
      [("check_name", PyVal.str "zzz")]
      [[("check_name", PyVal.str "a"), ("value", PyVal.num 150)]]
      (PyVal.str "zzz") (by decide) (by decide)
  · exact (parse_unmatched_rows_dropped c2Suite).2
      [[("check_name", PyVal.str "zzz")],
       [("check_name", PyVal.str "a"), ("value", PyVal.num 150)]]
      [{ check_name := "a"
         status := CheckStatus.PASS
         severity := Severity.ERROR
         message := Option.some "a: value 150 within range [100, +∞]"
         value := Option.some 150
         threshold_lower := Option.some 100
         threshold_upper := Option.none }]
      (by decide)

/-! ## Claim C3 — two-tier registry resolution -/

/-- C3: resolution does check the built-in set first by attribute name, but
for *every* name outside it — including names the plugin set does hold — the
`rule_name in self._plugins` membership test probes `registry[0]` through the
legacy `__getitem__` protocol, `get(0)` calls `.lower()` on the integer index,
and the resulting `AttributeError` propagates: the plugin fallback never
resolves and the `RuleNotFound` (`KeyError`) branch is unreachable.  The
plugin registry itself does hold `greater_than` (its own `get` returns it),
yet unified resolution of `greater_than` raises `AttributeError`. -/
theorem registry_get_noncore_raises_attribute_error :
    (∀ (plugins : PluginRulesetRegistry) (rule_name : String),
      rule_name ∉ coreRulesetAttrs →
      RulesetRegistry.get plugins rule_name =
        Except.error (PyErr.attributeError "'int' object has no attribute 'lower'"))
    ∧ "greater_than" ∉ coreRulesetAttrs
    ∧ adsPluginRegistry.get (PyVal.str "greater_than") = Except.ok greaterThanRule
    ∧ RulesetRegistry.get adsPluginRegistry "greater_than" =
        Except.error (PyErr.attributeError "'int' object has no attribute 'lower'") := by
  have hmain : ∀ (plugins : PluginRulesetRegistry) (rule_name : String),
      rule_name ∉ coreRulesetAttrs →
      RulesetRegistry.get plugins rule_name =
        Except.error (PyErr.attributeError "'int' object has no attribute 'lower'") := by
    intro plugins rule_name hnot
    have hc : plugins.contains (PyVal.str rule_name) =
        Except.error (PyErr.attributeError "'int' object has no attribute 'lower'") := by
      unfold PluginRulesetRegistry.contains
      rw [pluginContainsFrom]
      dsimp only [PluginRulesetRegistry.getitem, PluginRulesetRegistry.get]
      decide
    unfold RulesetRegistry.get
    rw [if_neg hnot, hc]
  refine ⟨hmain, by decide, by decide, hmain adsPluginRegistry "greater_than" (by decide)⟩

/-- Witness for C3 at another concrete input: a name found in neither set
also raises `AttributeError` instead of the `RuleNotFound` `KeyError`. -/
theorem registry_get_noncore_raises_attribute_error_witness :
    RulesetRegistry.get adsPluginRegistry "no_such_rule" =
      Except.error (PyErr.attributeError "'int' object has no attribute 'lower'") :=
  (registry_get_noncore_raises_attribute_error).1 adsPluginRegistry "no_such_rule"
    (by decide)

/-! ## Claim C1 — the orchestrated run pipeline -/

/-- Whether a fallible computation returned normally. -/
def exceptIsOk : Except PyErr String → Bool
  | Except.ok _ => true
  | Except.error _ => false

/-- C1: for every suite whose compilation succeeds, `run_suite` does *not*
hand the SQL to the execution collaborator and classify the returned rows —
it raises `TypeError` at the `executor.execute(...)` call, because the
keywords `validate_first`, `validate_only` and `extra` it passes are not
parameters of `Executor.execute` (and, were that call to bind, the
`parse(rows=rows)` call would omit `ResultParser.parse`'s required `suite`
argument and raise `TypeError` as well). -/
theorem run_suite_always_raises_type_error
    (executeImpl : String → List PyDict × PyDict) (suite : Suite)
    (h : exceptIsOk (SQLBuilder.build suite) = true) :
    SentinelRunner.run_suite executeImpl suite =
      Except.error (PyErr.typeError
        "execute() got an unexpected keyword argument 'validate_first'")
    ∧ pyKeywordsBind executorExecuteParams runSuiteExecuteCallKeywords = false := by
  have hbind : pyKeywordsBind executorExecuteParams runSuiteExecuteCallKeywords = false := by
    decide
  refine ⟨?_, hbind⟩
  unfold SentinelRunner.run_suite
  cases hb : SQLBuilder.build suite with
  | error e => rw [hb] at h; exact absurd h (by simp [exceptIsOk])
  | ok sql => simp [hbind]

/-- Witness for C1 at a concrete input: a one-check suite that compiles fine
still makes `run_suite` raise `TypeError`, whatever the execution
collaborator would have returned. -/
theorem run_suite_always_raises_type_error_witness :
    SentinelRunner.run_suite (fun _ => ([], [])) c2Suite =
      Except.error (PyErr.typeError
        "execute() got an unexpected keyword argument 'validate_first'") :=
  (run_suite_always_raises_type_error (fun _ => ([], [])) c2Suite (by decide)).1

/-! ## Claim C6 — one sub-query per check plus base, merge clause in order -/

/-- Greedy splitting of a character list on a separator — the observer used
to read the final merge clause back out of the generated SQL text.  When the
separator is a prefix, consume it; otherwise move one character. -/
def splitSepL (sep : List Char) (l : List Char) : List (List Char) :=
  match l with
  | [] => [[]]
  | c :: rest =>
    if h : sep ≠ [] ∧ sep <+: (c :: rest) then
      [] :: splitSepL sep ((c :: rest).drop sep.length)
    else
      match splitSepL sep rest with
      | [] => [[c]]
      | p :: ps => (c :: p) :: ps
termination_by l.length
decreasing_by
  · obtain ⟨hne, hpre⟩ := h
    have h1 : 0 < sep.length := List.length_pos.mpr hne
    have h2 : sep.length ≤ (c :: rest).length := hpre.length_le
    rw [List.length_drop]
    simp only [List.length_cons] at h2 ⊢
    omega
  · simp

/-- `joinSep` at the character-list level. -/
def joinSepL (sep : List Char) : List (List Char) → List Char
  | [] => []
  | x :: xs =>
    match xs with
    | [] => x
    | _ :: _ => x ++ sep ++ joinSepL sep xs

/-- A piece that avoids the separator's first character is returned whole. -/
theorem splitSepL_no_sep (h0 : Char) (stail : List Char) (piece : List Char)
    (hp : ∀ c ∈ piece, c ≠ h0) :
    splitSepL (h0 :: stail) piece = [piece] := by
  induction piece with
  | nil => rw [splitSepL]
  | cons c rest ih =>
    have hc : c ≠ h0 := hp c (List.mem_cons_self c rest)
    rw [splitSepL, dif_neg]
    · rw [ih fun c' hc' => hp c' (List.mem_cons_of_mem c hc')]
    · rintro ⟨-, hpre⟩
      rcases hpre with ⟨t, ht⟩
      rw [List.cons_append] at ht
      exact hc (List.head_eq_of_cons_eq ht).symm

/-- Splitting `piece ++ sep ++ rest` peels off `piece` when the piece avoids
the separator's first character. -/
theorem splitSepL_append (h0 : Char) (stail : List Char) (piece rest : List Char)
    (hp : ∀ c ∈ piece, c ≠ h0) :
    splitSepL (h0 :: stail) (piece ++ ((h0 :: stail) ++ rest)) =
      piece :: splitSepL (h0 :: stail) rest := by
  induction piece with
  | nil =>
    rw [List.nil_append, List.cons_append, splitSepL, dif_pos]
    · rw [List.length_cons, List.drop_succ_cons, List.drop_left]
    · refine ⟨by simp, ?_⟩
      rw [← List.cons_append]
      exact List.prefix_append (h0 :: stail) rest
  | cons c p ih =>
    have hc : c ≠ h0 := hp c (List.mem_cons_self c p)
    rw [List.cons_append, splitSepL, dif_neg]
    · rw [ih fun c' hc' => hp c' (List.mem_cons_of_mem c hc')]
    · rintro ⟨-, hpre⟩
      rcases hpre with ⟨t, ht⟩
      rw [List.cons_append] at ht
      exact hc (List.head_eq_of_cons_eq ht).symm

/-- Round trip: splitting a join on the separator recovers the pieces, as
long as every piece avoids the separator's first character. -/
theorem splitSepL_joinSepL (h0 : Char) (stail : List Char)
    (pieces : List (List Char)) (hne : pieces ≠ [])
    (hp : ∀ p ∈ pieces, ∀ c ∈ p, c ≠ h0) :
    splitSepL (h0 :: stail) (joinSepL (h0 :: stail) pieces) = pieces := by
  induction pieces with
  | nil => exact absurd rfl hne
  | cons p ps ih =>
    cases ps with
    | nil =>
      rw [joinSepL]
      exact splitSepL_no_sep h0 stail p (hp p (List.mem_cons_self p []))
    | cons q qs =>
      rw [joinSepL]
      rw [List.append_assoc,
        splitSepL_append h0 stail p (joinSepL (h0 :: stail) (q :: qs))
          (hp p (List.mem_cons_self p (q :: qs))),
        ih (List.cons_ne_nil q qs) fun r hr c hc => hp r (List.mem_cons_of_mem p hr) c hc]

/-- `String.append` acts as list append on the underlying characters. -/
theorem strData_append (a b : String) : (a ++ b).data = a.data ++ b.data := rfl

/-- `joinSep` and `joinSepL` agree through `String.data`. -/
theorem joinSep_data (sep : String) (xs : List String) :
    (joinSep sep xs).data = joinSepL sep.data (xs.map String.data) := by
  induction xs with
  | nil => rfl
  | cons x xs ih =>
    cases xs with
    | nil => rfl
    | cons y ys =>
      simp only [List.map_cons]
      rw [joinSep, joinSepL]
      rw [strData_append, strData_append, ih]
      simp only [List.map_cons]

/-- `dropWhile` skips a prefix whose characters all satisfy the predicate. -/
theorem dropWhile_append_of_all {α : Type} (p : α → Bool) (pre rest : List α)
    (h : ∀ c ∈ pre, p c = true) :
    (pre ++ rest).dropWhile p = rest.dropWhile p := by
  induction pre with
  | nil => rfl
  | cons c l ih =>
    rw [List.cons_append]
    rw [List.dropWhile]
    rw [h c (List.mem_cons_self c l)]
    exact ih fun c' hc' => h c' (List.mem_cons_of_mem c hc')

/-- `dropWhile` walks past one satisfying element. -/
theorem dropWhile_cons_of {α : Type} (p : α → Bool) (c : α) (l : List α)
    (h : p c = true) : (c :: l).dropWhile p = l.dropWhile p := by
  rw [List.dropWhile, h]

/-- `dropWhile` stops at a failing element. -/
theorem dropWhile_cons_not {α : Type} (p : α → Bool) (c : α) (l : List α)
    (h : p c = false) : (c :: l).dropWhile p = c :: l := by
  rw [List.dropWhile, h]

/-- `takeWhile` keeps a prefix whose characters all satisfy the predicate. -/
theorem takeWhile_append_of_all {α : Type} (p : α → Bool) (pre rest : List α)
    (h : ∀ c ∈ pre, p c = true) :
    (pre ++ rest).takeWhile p = pre ++ rest.takeWhile p := by
  induction pre with
  | nil => rfl
  | cons c l ih =>
    rw [List.cons_append]
    rw [List.takeWhile]
    rw [h c (List.mem_cons_self c l)]
    rw [ih fun c' hc' => h c' (List.mem_cons_of_mem c hc')]
    rfl

/-- `takeWhile` stops at a failing element. -/
theorem takeWhile_cons_not {α : Type} (p : α → Bool) (c : α) (l : List α)
    (h : p c = false) : (c :: l).takeWhile p = [] := by
  rw [List.takeWhile, h]

/-- `takeWhile` keeps one satisfying element. -/
theorem takeWhile_cons_of {α : Type} (p : α → Bool) (c : α) (l : List α)
    (h : p c = true) : (c :: l).takeWhile p = c :: l.takeWhile p := by
  rw [List.takeWhile, h]

/-- An identifier character is neither a newline nor a space. -/
theorem isIdentChar_ne (c : Char) (hc : isIdentChar c = true) :
    c ≠ '\n' ∧ c ≠ ' ' := by
  constructor <;> rintro rfl <;> revert hc <;> decide

/-- Check names that are safe SQL identifiers: nonempty, made of letters,
digits and underscores.  (Names outside this set would corrupt the generated
aliases — the data model does not enforce it, so the C6 statement assumes
it.) -/
def sqlNameOk (s : String) : Bool := !s.isEmpty && s.data.all isIdentChar

/-- No embedded newline in the check's description (which only appears inside
the generated comment line). -/
def checkDescOk (check : Check) : Bool :=
  match check.description with
  | Option.some d => d.data.all fun c => c != '\n'
  | Option.none => true

/-- The alias of a generated check-CTE block: skip the leading newline and
the comment line, then read up to the first space. -/
def cteAliasL (block : String) : List Char :=
  (((block.data.drop 1).dropWhile fun c => c ≠ '\n').drop 1).takeWhile fun c => c ≠ ' '

/-- Every check-CTE block that `_build_check_cte` emits carries the alias
`cte_<check.name>`, read back by `cteAliasL`. -/
theorem build_check_cte_alias (suite : Suite) (check : Check) (b : String)
    (hok : SQLBuilder.build_check_cte suite check = Except.ok b)
    (hname : sqlNameOk check.name = true) (hdesc : checkDescOk check = true) :
    cteAliasL b = ("cte_" ++ check.name).data := by
  have hnm : ∀ c ∈ check.name.data, isIdentChar c = true := by
    rw [sqlNameOk, Bool.and_eq_true] at hname
    exact fun c hc => List.all_eq_true.mp hname.2 c hc
  unfold SQLBuilder.build_check_cte at hok
  cases hrt : check.rule_template with
  | none => rw [hrt] at hok; exact absurd hok (by simp)
  | some t =>
    rw [hrt] at hok
    cases hps : check.params with
    | none => rw [hps] at hok; exact absurd hok (by simp)
    | some ps =>
      rw [hps] at hok
      dsimp only at hok
      cases hr : t.render (Option.some (SQLBuilder.check_extra_params suite check ps)) with
      | error e => rw [hr] at hok; exact absurd hok (by simp)
      | ok sql_body =>
        rw [hr] at hok
        dsimp only at hok
        injection hok with hb
        have hD : ∀ c ∈ (match check.description with
            | Option.some d => if d.isEmpty then "" else "[" ++ d ++ "]"
            | Option.none => "").data, (c != '\n') = true := by
          intro c hc
          cases hde : check.description with
          | none =>
            rw [hde] at hc
            exact absurd hc (by simp)
          | some d =>
            rw [hde] at hc
            unfold checkDescOk at hdesc
            rw [hde] at hdesc
            dsimp only at hc hdesc
            by_cases hem : d.isEmpty = true
            · rw [if_pos hem] at hc
              exact absurd hc (by simp)
            · rw [if_neg hem] at hc
              rw [strData_append, strData_append] at hc
              rcases List.mem_append.mp hc with hc' | hc'
              · rcases List.mem_append.mp hc' with hc'' | hc''
                · have hcv : c = '[' := by
                    simpa using hc''
                  subst hcv
                  decide
                · exact List.all_eq_true.mp hdesc c hc''
              · have hcv : c = ']' := by
                  simpa using hc'
                subst hcv
                decide
        rw [← hb]
        unfold cteAliasL
        simp only [strData_append, List.append_assoc, List.cons_append,
          List.singleton_append, List.drop_one, List.tail_cons]
        simp [List.dropWhile_cons]
        rw [dropWhile_append_of_all _ check.name.data _
          (fun c hc => by
            have := (isIdentChar_ne c (hnm c hc)).1
            simpa using this)]
        rw [dropWhile_cons_of _ ' ' _ (by simp)]
        rw [dropWhile_append_of_all _ _ _
          (fun c hc => by simpa using hD c hc)]
        rw [dropWhile_cons_not _ '\n' _ (by simp)]
        simp only [List.drop_one, List.tail_cons]
        simp [List.takeWhile_cons]
        rw [takeWhile_append_of_all _ check.name.data _
          (fun c hc => by
            have := (isIdentChar_ne c (hnm c hc)).2
            simpa using this)]
        rw [takeWhile_cons_not _ ' ' _ (by simp)]
        simp

/-- The alias of every emitted check block is `cte_<check.name>`, elementwise
along the blocks `exMapM` produced. -/
theorem aliases_of_blocks (suite : Suite) (checks : List Check)
    (ctes : List String)
    (hf : List.Forall₂ (fun c b => SQLBuilder.build_check_cte suite c = Except.ok b)
      checks ctes)
    (hnames : ∀ c ∈ checks, sqlNameOk c.name = true)
    (hdescs : ∀ c ∈ checks, checkDescOk c = true) :
    ctes.map cteAliasL = checks.map fun c => ("cte_" ++ c.name).data := by
  induction hf with
  | nil => rfl
  | @cons c b cs bs hcb hrest ih =>
    simp only [List.map_cons]
    rw [build_check_cte_alias suite c b hcb
        (hnames c (List.mem_cons_self c cs)) (hdescs c (List.mem_cons_self c cs)),
      ih (fun c' hc' => hnames c' (List.mem_cons_of_mem c hc'))
        (fun c' hc' => hdescs c' (List.mem_cons_of_mem c hc'))]

/-- C6: for a suite with at least one check (whose names are SQL identifiers
and whose descriptions carry no newline), a successful compilation emits the
rendered CTE chain — one base block plus exactly one block per Check, the
i-th block aliased `cte_<check_i.name>` — followed by the final merge clause,
and splitting that merge clause on its `UNION ALL` separator yields exactly
one `SELECT * FROM cte_<check.name>` per Check, in the Suite's declared Check
order. -/
theorem compile_emits_per_check_subqueries (suite : Suite)
    (base body : String) (ctes : List String)
    (hne : suite.checks ≠ [])
    (hnames : ∀ c ∈ suite.checks, sqlNameOk c.name = true)
    (hdescs : ∀ c ∈ suite.checks, checkDescOk c = true)
    (hbase : SQLBuilder.build_base_cte suite = Except.ok base)
    (hctes : exMapM (SQLBuilder.build_check_cte suite) suite.checks = Except.ok ctes)
    (hbody : renderJinjaTemplate (SQLBuilder.combine_cte_blocks base ctes)
      (suite.params.getD []) false = Except.ok body) :
    SQLBuilder.build suite = Except.ok (body ++ "\n" ++ SQLBuilder.check_unions suite)
    ∧ SQLBuilder.combine_cte_blocks base ctes = joinSep ", " (base :: ctes)
    ∧ ctes.length = suite.checks.length
    ∧ ctes.map cteAliasL = suite.checks.map (fun c => ("cte_" ++ c.name).data)
    ∧ splitSepL ("\nUNION ALL\n").data (SQLBuilder.check_unions suite).data =
        suite.checks.map fun c => (SQLBuilder.union_select c).data := by
  refine ⟨?_, rfl, exMapM_length hctes,
    aliases_of_blocks suite suite.checks ctes (exMapM_forall₂ hctes) hnames hdescs, ?_⟩
  · have hsb : SQLBuilder.build_sql_body suite = Except.ok body := by
      unfold SQLBuilder.build_sql_body
      rw [hbase]
      dsimp only
      rw [hctes]
      dsimp only
      exact hbody
    unfold SQLBuilder.build
    rw [hsb]
  · rw [SQLBuilder.check_unions, joinSep_data]
    rw [show ("\nUNION ALL\n" : String).data =
      '\n' :: ("UNION ALL\n" : String).data from rfl]
    rw [splitSepL_joinSepL '\n' ("UNION ALL\n" : String).data
      ((suite.checks.map SQLBuilder.union_select).map String.data)
      (by simpa using hne) ?_]
    · rw [List.map_map]
      rfl
    · intro p hp c hc
      rcases List.mem_map.mp hp with ⟨x, hx, rfl⟩
      rcases List.mem_map.mp hx with ⟨ch, hch, rfl⟩
      rw [SQLBuilder.union_select, strData_append] at hc
      rcases List.mem_append.mp hc with hc' | hc'
      · have hall : ∀ x ∈ ("SELECT * FROM cte_" : String).data, x ≠ '\n' := by decide
        exact hall c hc'
      · exact (isIdentChar_ne c
          (List.all_eq_true.mp (by
            have := hnames ch hch
            rw [sqlNameOk, Bool.and_eq_true] at this
            exact this.2) c hc')).1

/-- The first check of the C6 witness suite. -/
def c6CheckA : Check :=
  { name := "alpha"
    rule_template := Option.some { name := "t6a", sql_template := "SELECT 1" }
    params := Option.some [] }

/-- The second check of the C6 witness suite. -/
def c6CheckB : Check :=
  { name := "beta"
    rule_template := Option.some { name := "t6b", sql_template := "SELECT 2" }
    params := Option.some [] }

/-- The C6 witness suite: a TABLE source and two checks. -/
def c6Suite : Suite :=
  { name := "s6"
    data_source := { type := DataSourceType.TABLE, table := Option.some "tbl" }
    checks := [c6CheckA, c6CheckB] }

/-- Witness for C6 at the concrete two-check suite. -/
theorem compile_emits_per_check_subqueries_witness :
    SQLBuilder.build c6Suite =
      Except.ok
        ("-- Base CTE (Data Source Type > TABLE)\nWITH cte_s6_base AS ( SELECT * FROM `tbl` ), \n-- Check CTE - alpha \ncte_alpha AS (SELECT 1), \n-- Check CTE - beta \ncte_beta AS (SELECT 2)"
          ++ "\n" ++ SQLBuilder.check_unions c6Suite)
    ∧ splitSepL ("\nUNION ALL\n").data (SQLBuilder.check_unions c6Suite).data =
        c6Suite.checks.map (fun c => (SQLBuilder.union_select c).data) := by
  have h := compile_emits_per_check_subqueries c6Suite
    "-- Base CTE (Data Source Type > TABLE)\nWITH cte_s6_base AS ( SELECT * FROM `tbl` )"
    "-- Base CTE (Data Source Type > TABLE)\nWITH cte_s6_base AS ( SELECT * FROM `tbl` ), \n-- Check CTE - alpha \ncte_alpha AS (SELECT 1), \n-- Check CTE - beta \ncte_beta AS (SELECT 2)"
    ["\n-- Check CTE - alpha \ncte_alpha AS (SELECT 1)",
     "\n-- Check CTE - beta \ncte_beta AS (SELECT 2)"]
    (by decide) (by decide) (by decide) (by decide) (by decide) (by decide)
  exact ⟨h.1, h.2.2.2.2⟩
